import Mathlib

/-!
Verification of `discord/voice_client.py` (the `VoiceClient` class of a
discord.py fork): a shallow embedding of its counter bookkeeping, RTP packet
construction, encryption-mode packet layouts, and the guard/error structure of
its public operations, together with theorems settling the specification
claims about them.

Conventions used throughout the embedding:
* Python `bytes` / `bytearray` values are `List Nat`, each entry a byte value.
* Python exceptions are the constructors of `PyExc`; a function that can raise
  returns `Except PyExc _`.
* External collaborators that are not part of `voice_client.py` (the nacl
  secret box, the opus encoder/decoder, the `VoiceConnectionState` object, the
  audio player/receiver threads, the OS socket) enter as explicit parameters:
  a function argument for the secret box and the opus encode step, `Bool`
  arguments for externally-owned predicates (`is_connected`, the player's
  `is_playing`, the audio process pool flag, ...), and a `Bool` describing
  whether the OS-level send succeeded.
-/

namespace VoiceClientPy

/-- Python exception classes raised (or raisable) by the code under study. -/
inductive PyExc
  | clientException
  | typeError
  | valueError
  | runtimeError
  | attributeError
  | keyError
  | opusNotLoaded
  | osError
deriving DecidableEq, Repr

instance {ε α : Type} [DecidableEq ε] [DecidableEq α] : DecidableEq (Except ε α) := by
  intro a b
  cases a <;> cases b
  case error.error e1 e2 =>
    exact if h : e1 = e2 then isTrue (by rw [h]) else isFalse (fun hc => h (by cases hc; rfl))
  case error.ok _ _ => exact isFalse (fun hc => by cases hc)
  case ok.error _ _ => exact isFalse (fun hc => by cases hc)
  case ok.ok a1 a2 =>
    exact if h : a1 = a2 then isTrue (by rw [h]) else isFalse (fun hc => h (by cases hc; rfl))

/-- State of the `AudioReceiver` thread as far as `VoiceClient` queries it:
`is_on_standby()` and `is_cleaning()` (the receiver itself lives in
`discord/sink.py`, outside the file under study, so only these two observable
flags are modelled). -/
structure ReceiverState where
  on_standby : Bool
  cleaning : Bool
deriving DecidableEq, Repr

/-- The instance attributes of a `VoiceClient` that the verified operations
read or write.  `player` and `receiver` model `self._player` /
`self._receiver` (`None` ↔ `none`).  `connectedAttrPresent` records whether
the instance attribute `_connected` exists at all: `__init__` never creates
it (no line of `voice_client.py` assigns it), so it is `false` unless some
external code sets it. -/
structure VoiceClientState where
  sequence : Nat
  timestamp : Nat
  lite_nonce : Nat
  player : Option Unit
  receiver : Option ReceiverState
  connectedAttrPresent : Bool
  connectedSet : Bool
deriving DecidableEq, Repr

/-- `VoiceClient.checked_add(attr, value, limit)` (lines 293–298): reads the
counter, stores `0` if `val + value > limit` and `val + value` otherwise.
The attribute indirection via `getattr`/`setattr` is resolved at each call
site; the arithmetic rule is this function. -/
def checked_add (val value limit : Nat) : Nat :=
  if val + value > limit then 0 else val + value

/-- `VoiceClient.__init__` (lines 223–242): raises `RuntimeError` when the
PyNaCl library is absent, before any attribute is created; otherwise produces
the initial instance state (`sequence = 0`, `timestamp = 0`, `_lite_nonce = 0`,
`_player = None`, `_receiver = None`; the `_connected` attribute is never
created). -/
def VoiceClient_init (has_nacl : Bool) : Except PyExc VoiceClientState :=
  if !has_nacl then
    Except.error PyExc.runtimeError
  else
    Except.ok
      { sequence := 0
        timestamp := 0
        lite_nonce := 0
        player := none
        receiver := none
        connectedAttrPresent := false
        connectedSet := false }

/-- `struct.pack('>H', v)`: two-byte big-endian encoding.  The callers keep
`v < 2 ** 16` (via `checked_add` with limit `65535`), where the `% 2 ** 8`
truncations are exact. -/
def be16 (v : Nat) : List Nat :=
  [v / 2 ^ 8 % 2 ^ 8, v % 2 ^ 8]

/-- `struct.pack('>I', v)`: four-byte big-endian encoding.  The callers keep
`v < 2 ** 32` (via `checked_add` with limit `4294967295`). -/
def be32 (v : Nat) : List Nat :=
  [v / 2 ^ 24 % 2 ^ 8, v / 2 ^ 16 % 2 ^ 8, v / 2 ^ 8 % 2 ^ 8, v % 2 ^ 8]

/-- Big-endian decoding of a byte list, used to state that the header fields
round-trip. -/
def beNat (l : List Nat) : Nat :=
  l.foldl (fun acc b => acc * 2 ^ 8 + b) 0

/-- The 12-byte RTP header built inside `_get_voice_packet` (lines 439–446):
`header = bytearray(12)`, `header[0] = 0x80`, `header[1] = 0x78`, then
`pack_into('>H', header, 2, sequence)`, `pack_into('>I', header, 4,
timestamp)`, `pack_into('>I', header, 8, ssrc)`. -/
def rtpHeader (sequence timestamp ssrc : Nat) : List Nat :=
  [0x80, 0x78] ++ be16 sequence ++ be32 timestamp ++ be32 ssrc

/-- `VoiceClient._encrypt_xsalsa20_poly1305` (lines 451–456).  The nacl secret
box (external) is the parameter `box`, taking the plaintext and the 24-byte
nonce to the ciphertext.  `nonce = bytearray(24); nonce[:12] = header` gives
`header ++ 12 zero bytes` (for the 12-byte headers produced by
`_get_voice_packet`); the wire packet is `header + ciphertext` with nothing
appended. -/
def encrypt_xsalsa20_poly1305 (box : List Nat → List Nat → List Nat)
    (header data : List Nat) : List Nat :=
  let nonce := header ++ List.replicate 12 0
  header ++ box data nonce

/-- `VoiceClient._encrypt_xsalsa20_poly1305_suffix` (lines 458–462).  The
24 fresh random bytes drawn from `nacl.utils.random(SecretBox.NONCE_SIZE)`
enter as the parameter `random_nonce`; the wire packet is
`header + ciphertext + nonce` (the full nonce appended). -/
def encrypt_xsalsa20_poly1305_suffix (box : List Nat → List Nat → List Nat)
    (random_nonce header data : List Nat) : List Nat :=
  header ++ box data random_nonce ++ random_nonce

/-- `VoiceClient._encrypt_xsalsa20_poly1305_lite` (lines 464–471):
`nonce = bytearray(24); nonce[:4] = struct.pack('>I', self._lite_nonce)`,
then `self.checked_add('_lite_nonce', 1, 4294967295)`, and the wire packet is
`header + ciphertext + nonce[:4]`.  Returns the packet together with the
updated instance state. -/
def encrypt_xsalsa20_poly1305_lite (box : List Nat → List Nat → List Nat)
    (header data : List Nat) (st : VoiceClientState) :
    List Nat × VoiceClientState :=
  let nonce := be32 st.lite_nonce ++ List.replicate 20 0
  let st' := { st with lite_nonce := checked_add st.lite_nonce 1 4294967295 }
  (header ++ box data nonce ++ nonce.take 4, st')

/-- The negotiated encryption mode (`supported_modes`, lines 245–249): the
dynamic dispatch `getattr(self, '_encrypt_' + self.mode)` becomes a match on
this closed variant. -/
inductive SupportedMode
  | xsalsa20_poly1305_lite
  | xsalsa20_poly1305_suffix
  | xsalsa20_poly1305
deriving DecidableEq, Repr

/-- `VoiceClient._get_voice_packet` (lines 438–449): builds the RTP header
from the current `sequence`, `timestamp` and the negotiated `ssrc`, then
dispatches to `_encrypt_<mode>`.  `random_nonce` feeds the suffix mode's
external randomness; only the lite mode changes the instance state. -/
def get_voice_packet (box : List Nat → List Nat → List Nat)
    (mode : SupportedMode) (random_nonce : List Nat) (ssrc : Nat)
    (st : VoiceClientState) (data : List Nat) :
    List Nat × VoiceClientState :=
  let header := rtpHeader st.sequence st.timestamp ssrc
  match mode with
  | SupportedMode.xsalsa20_poly1305 =>
      (encrypt_xsalsa20_poly1305 box header data, st)
  | SupportedMode.xsalsa20_poly1305_suffix =>
      (encrypt_xsalsa20_poly1305_suffix box random_nonce header data, st)
  | SupportedMode.xsalsa20_poly1305_lite =>
      encrypt_xsalsa20_poly1305_lite box header data st

/-- `VoiceClient.send_audio_packet` (lines 751–782):
`checked_add('sequence', 1, 65535)` first; the data is opus-encoded when
`encode=True` (external encoder, parameter `encode_fn`); the packet is built
by `_get_voice_packet`; `self._connection.send_packet(packet)` is attempted
and an `OSError` (send success given by the parameter `send_ok`) is caught
and logged — never re-raised; finally
`checked_add('timestamp', opus.Encoder.SAMPLES_PER_FRAME, 4294967295)`
(the external codec constant enters as `samples_per_frame`).  Returns the new
state, the packet that was built, and whether the packet was dropped. -/
def send_audio_packet (box : List Nat → List Nat → List Nat)
    (mode : SupportedMode) (random_nonce : List Nat)
    (ssrc samples_per_frame : Nat) (encode_fn : List Nat → List Nat)
    (encode send_ok : Bool) (st : VoiceClientState) (data : List Nat) :
    VoiceClientState × List Nat × Bool :=
  let st1 := { st with sequence := checked_add st.sequence 1 65535 }
  let encoded_data := if encode then encode_fn data else data
  let pr := get_voice_packet box mode random_nonce ssrc st1 encoded_data
  -- try: self._connection.send_packet(packet)
  -- except OSError: _log.info('A packet has been dropped ...')
  let dropped := !send_ok
  let st3 := { pr.2 with timestamp := checked_add pr.2.timestamp samples_per_frame 4294967295 }
  (st3, pr.1, dropped)

/-- Outcome of a successful `play` call: whether an opus encoder was
constructed, and that the `AudioPlayer` was created and started (always true
on success — `self._player = AudioPlayer(...); self._player.start()` are the
last two statements). -/
structure PlayOutcome where
  encoder_constructed : Bool
  player_started : Bool
deriving DecidableEq, Repr

/-- Modelled from the spec: the opus encoder constructor (`opus.Encoder`,
module `discord/opus.py`, which is not under `src/`) validates its
configuration before any packet is sent; the bitrate must lie in 16–512 and
an out-of-range value raises a configuration error (`ValueError`, per the
`play` docstring's "An improper value was passed as an encoder parameter").
Only the bitrate parameter is modelled, the one the claims exercise. -/
def Encoder_new (bitrate : Nat) : Except PyExc Unit :=
  if 16 ≤ bitrate ∧ bitrate ≤ 512 then Except.ok () else Except.error PyExc.valueError

/-- `VoiceClient.play` (lines 473–565), with the externally-owned predicates
as parameters: `connected` for `self.is_connected()` (delegated to
`VoiceConnectionState`), `playing` for `self.is_playing()` (delegated to the
`AudioPlayer`), `source_is_AudioSource` for the `isinstance(source,
AudioSource)` check and `source_is_opus` for `source.is_opus()`.  Guard
order as in the source: not connected → `ClientException`; already playing →
`ClientException`; wrong type → `TypeError`; then, only for a non-opus
source, the encoder is constructed (its error propagates before the player
is created); finally the player is created and started. -/
def play (connected playing source_is_AudioSource source_is_opus : Bool)
    (bitrate : Nat) : Except PyExc PlayOutcome :=
  if !connected then Except.error PyExc.clientException
  else if playing then Except.error PyExc.clientException
  else if !source_is_AudioSource then Except.error PyExc.typeError
  else if !source_is_opus then
    match Encoder_new bitrate with
    | Except.error e => Except.error e
    | Except.ok _ => Except.ok ⟨true, true⟩
  else Except.ok ⟨false, true⟩

/-- `VoiceClient.is_listen_receiving` (lines 701–703):
`self._receiver is not None and not self._receiver.is_on_standby()`. -/
def is_listen_receiving (receiver : Option ReceiverState) : Bool :=
  match receiver with
  | none => false
  | some r => !r.on_standby

/-- `VoiceClient.is_listen_cleaning` (lines 705–707):
`self._receiver is not None and self._receiver.is_cleaning()`. -/
def is_listen_cleaning (receiver : Option ReceiverState) : Bool :=
  match receiver with
  | none => false
  | some r => r.cleaning

/-- `VoiceClient.listen` (lines 591–664), externally-owned predicates as
parameters: `connected` for `is_connected()`, `pool_initialized` for
`is_audio_process_pool_initialized()` (delegated to the process-wide
`ConnectionState`), `sink_is_AudioSink` for the `isinstance(sink, AudioSink)`
check, `opus_loaded` for whether `opus.Decoder.get_opus_version()` succeeds.
Guard order as in the source: not connected → `ClientException`;
`is_listen_receiving()` → `ClientException`; wrong sink type → `TypeError`;
pool not initialized → `ClientException` (this check reads `decode` nowhere);
then the cleanup warning is logged when `not supress_warning and
is_listen_cleaning()`; then, when `decode` is true, the opus check may raise;
finally `self._receiver.start_listening(...)` (an `AttributeError` on a
`None` receiver).  On success the returned `Bool` records whether the
advisory warning was emitted. -/
def listen (connected : Bool) (receiver : Option ReceiverState)
    (sink_is_AudioSink pool_initialized decode supress_warning opus_loaded : Bool) :
    Except PyExc Bool :=
  if !connected then Except.error PyExc.clientException
  else if is_listen_receiving receiver then Except.error PyExc.clientException
  else if !sink_is_AudioSink then Except.error PyExc.typeError
  else if !pool_initialized then Except.error PyExc.clientException
  else
    let warned := !supress_warning && is_listen_cleaning receiver
    if decode && !opus_loaded then Except.error PyExc.opusNotLoaded
    else
      match receiver with
      | none => Except.error PyExc.attributeError
      | some _ => Except.ok warned

/-- First component of Python's `s.rpartition(c)`: everything before the LAST
occurrence of `c`, and the empty string when `c` does not occur (Python
returns `('', '', s)` in that case). -/
def rpartitionBefore (s : String) (c : Char) : String :=
  String.mk (((s.data.reverse.dropWhile (fun x => x != c)).drop 1).reverse)

/-- The `VOICE_SERVER_UPDATE` payload (`data` in `on_voice_server_update`):
`data['token']` and `data['guild_id']` are indexed directly, `endpoint` is
read with `data.get('endpoint')` and may be absent/`None`. -/
structure VoiceServerUpdatePayload where
  token : String
  guild_id : Nat
  endpoint : Option String
deriving DecidableEq, Repr

/-- Observable outcome of `on_voice_server_update`: the updated instance
state, whether the UDP socket was opened, whether the voice websocket was
closed with code 4000, and whether `_voice_server_complete` was set. -/
structure ServerUpdateResult where
  state : VoiceClientState
  socket_opened : Bool
  ws_closed_4000 : Bool
  server_complete_set : Bool
deriving DecidableEq, Repr

/-- Assignment `self.token = ...`.  `VoiceClient.token` is a class-level
`@property` with a getter only (lines 265–267, delegating to
`self._connection.token`); a property is a data descriptor, so instance
assignment invokes its (absent) setter and raises `AttributeError`. -/
def set_token_property (_value : String) : Except PyExc Unit :=
  Except.error PyExc.attributeError

/-- Assignment `self.endpoint = ...`.  `VoiceClient.endpoint` is likewise a
getter-only class property (lines 269–271). -/
def set_endpoint_property (_value : String) : Except PyExc Unit :=
  Except.error PyExc.attributeError

/-- `VoiceClient.on_voice_server_update` (lines 308–340).  External inputs:
`connection_token` is the value of the read-only `token` property (i.e.
`self._connection.token`), `handshaking` the value of `self._handshaking`
read at line 335.  The body in source order:
`await self._connection.voice_server_update(data)` (external, assumed to
return); `self.token = data['token']` — an assignment to the getter-only
property, which raises; then (dead code, embedded faithfully)
`self.server_id = int(data['guild_id'])`; the missing-endpoint/token early
return that logs and leaves the socket unopened; the endpoint derivation
`endpoint.rpartition(':')` and `wss://` strip (both again assignments to the
read-only `endpoint` property); socket creation; receiver creation/start;
and the not-handshaking branch closing the websocket with code 4000, versus
setting `_voice_server_complete`. -/
def on_voice_server_update (connection_token : Option String)
    (handshaking : Bool) (data : VoiceServerUpdatePayload)
    (st : VoiceClientState) : Except PyExc ServerUpdateResult := do
  set_token_property data.token
  let _server_id := data.guild_id
  match data.endpoint with
  | none =>
      -- _log.warning('Awaiting endpoint...'); return
      pure ⟨st, false, false, false⟩
  | some endpoint =>
      if connection_token.isNone then
        pure ⟨st, false, false, false⟩
      else do
        -- self.endpoint, _, _ = endpoint.rpartition(':')
        set_endpoint_property (rpartitionBefore endpoint ':')
        let ep := rpartitionBefore endpoint ':'
        let ep := if ep.startsWith "wss://" then ep.drop 6 else ep
        set_endpoint_property ep
        -- self.socket = socket.socket(AF_INET, SOCK_DGRAM); setblocking(False)
        -- self._receiver = AudioReceiver(self); self._receiver.start()
        let st := { st with receiver := some ⟨true, false⟩ }
        if !handshaking then
          -- await self.ws.close(4000); return
          pure ⟨st, true, true, false⟩
        else
          -- self._voice_server_complete.set()
          pure ⟨st, true, false, true⟩

/-- `VoiceClient.stop` (lines 575–579): `if self._player:
self._player.stop(); self._player = None` (the thread stop itself is
external). -/
def stop (st : VoiceClientState) : VoiceClientState :=
  match st.player with
  | some _ => { st with player := none }
  | none => st

/-- `VoiceClient.disconnect` (lines 400–409), in source order: `self.stop()`;
`await self._connection.disconnect(force=force)` (external session
teardown); `self.cleanup()` (external registry removal);
`self._receiver.stop()` — an `AttributeError` when `self._receiver` is
`None`; `self._connected.clear()` — an `AttributeError` when the instance
has no `_connected` attribute (no line of `voice_client.py` ever assigns
one). -/
def disconnect (_force : Bool) (st : VoiceClientState) :
    Except PyExc VoiceClientState :=
  let st1 := stop st
  match st1.receiver with
  | none => Except.error PyExc.attributeError
  | some _ =>
      if st1.connectedAttrPresent then
        Except.ok { st1 with connectedSet := false }
      else
        Except.error PyExc.attributeError

/-- C1: for every counter value `v` and increment `d` with limit `L`,
`checked_add` stores `0` if `v + d > L` and `v + d` otherwise; in particular
`checked_add(sequence, 1, 65535)` yields `v + 1` when `v + 1 ≤ 65535` and `0`
otherwise (likewise for the 32-bit limit), and the reset goes to exactly `0`
— not to the modular remainder — even when `v + d` exceeds `L` by more than
one. -/
theorem checked_add_spec (v d L : Nat) :
    checked_add v d L = (if v + d > L then 0 else v + d)
    ∧ checked_add v 1 65535 = (if v + 1 ≤ 65535 then v + 1 else 0)
    ∧ checked_add v 1 4294967295 = (if v + 1 ≤ 4294967295 then v + 1 else 0)
    ∧ checked_add 65535 2 65535 = 0
    ∧ checked_add 65535 2 65535 ≠ (65535 + 2) % 65536 := by
  refine ⟨rfl, ?_, ?_, by decide, by decide⟩ <;>
    (simp only [checked_add]; split_ifs <;> omega)

/-- C10: constructing a `VoiceClient` without PyNaCl raises `RuntimeError`
before any state is created (the `Except.error` result carries no instance
state); with PyNaCl available the fresh instance has `sequence = 0`,
`timestamp = 0`, `_lite_nonce = 0`, no player and no receiver. -/
theorem VoiceClient_init_spec :
    VoiceClient_init false = Except.error PyExc.runtimeError
    ∧ VoiceClient_init true
        = Except.ok ⟨0, 0, 0, none, none, false, false⟩ :=
  ⟨rfl, rfl⟩

/-- C5 (code bug): for every connection token, handshake flag, payload and
instance state, `on_voice_server_update` raises `AttributeError` at its first
statement `self.token = data['token']`, because `VoiceClient.token` is a
getter-only property (lines 265–267); the socket is therefore never opened,
the receiver never started, and the endpoint never derived, contrary to the
claimed behaviour. -/
theorem on_voice_server_update_raises (connection_token : Option String)
    (handshaking : Bool) (data : VoiceServerUpdatePayload)
    (st : VoiceClientState) :
    on_voice_server_update connection_token handshaking data st
      = Except.error PyExc.attributeError := rfl

/-- C9 (code bug): `disconnect(force)` on a freshly constructed client — one
whose handshake never completed, so `self._receiver` is still `None` — raises
`AttributeError` at `self._receiver.stop()` instead of succeeding, for either
value of `force`. -/
theorem disconnect_fresh_client_raises (force : Bool) :
    (VoiceClient_init true).bind (disconnect force)
      = Except.error PyExc.attributeError := rfl

/-- C2: for every sequence (u16), timestamp (u32) and ssrc (u32), the RTP
header is exactly 12 bytes: bytes 0–1 are the constants `0x80`, `0x78`;
bytes 2–3 decode big-endian to the sequence; bytes 4–7 to the timestamp;
bytes 8–11 to the SSRC; every byte is below 256; and at
`sequence = 1, timestamp = 960, ssrc = 12345` the header is
`80 78 00 01 00 00 03 C0 00 00 30 39`. -/
theorem rtp_header_spec (sequence timestamp ssrc : Nat)
    (h1 : sequence < 2 ^ 16) (h2 : timestamp < 2 ^ 32) (h3 : ssrc < 2 ^ 32) :
    (rtpHeader sequence timestamp ssrc).length = 12
    ∧ (rtpHeader sequence timestamp ssrc).take 2 = [0x80, 0x78]
    ∧ beNat (((rtpHeader sequence timestamp ssrc).drop 2).take 2) = sequence
    ∧ beNat (((rtpHeader sequence timestamp ssrc).drop 4).take 4) = timestamp
    ∧ beNat (((rtpHeader sequence timestamp ssrc).drop 8).take 4) = ssrc
    ∧ (∀ b ∈ rtpHeader sequence timestamp ssrc, b < 2 ^ 8)
    ∧ rtpHeader 1 960 12345
        = [0x80, 0x78, 0x00, 0x01, 0x00, 0x00, 0x03, 0xC0, 0x00, 0x00, 0x30, 0x39] := by
  refine ⟨?_, ?_, ?_, ?_, ?_, ?_, by decide⟩ <;>
    simp only [rtpHeader, be16, be32, beNat, List.cons_append, List.nil_append,
      List.length_cons, List.length_nil, List.take, List.drop, List.foldl,
      List.mem_cons, List.not_mem_nil, or_false]
  · omega
  · omega
  · omega
  · intro b hb
    rcases hb with rfl | rfl | rfl | rfl | rfl | rfl | rfl | rfl | rfl | rfl | rfl | rfl <;> omega

/-- C2 witness: the theorem instantiated at the spec's concrete example. -/
theorem rtp_header_spec_witness :
    (rtpHeader 1 960 12345).length = 12
    ∧ beNat (((rtpHeader 1 960 12345).drop 4).take 4) = 960 :=
  ⟨(rtp_header_spec 1 960 12345 (by decide) (by decide) (by decide)).1,
   (rtp_header_spec 1 960 12345 (by decide) (by decide) (by decide)).2.2.2.1⟩

/-- C3: in lite mode the secret box receives the 4-byte big-endian counter
zero-padded to 24 bytes, the wire packet is
`header ∥ ciphertext ∥ 4-byte counter` (only those 4 trailing bytes, the
counter's big-endian encoding, not the full 24-byte nonce), and the counter
is then advanced by `checked_add 1` with limit `4294967295` — an increase by
exactly 1, resetting to 0 once it would exceed the limit — while the
`sequence` and `timestamp` counters are left untouched. -/
theorem encrypt_lite_spec (box : List Nat → List Nat → List Nat)
    (header data : List Nat) (st : VoiceClientState) :
    (encrypt_xsalsa20_poly1305_lite box header data st).1
      = header ++ box data (be32 st.lite_nonce ++ List.replicate 20 0)
          ++ be32 st.lite_nonce
    ∧ (be32 st.lite_nonce ++ List.replicate 20 0).length = 24
    ∧ (be32 st.lite_nonce).length = 4
    ∧ (encrypt_xsalsa20_poly1305_lite box header data st).2.lite_nonce
        = (if st.lite_nonce + 1 > 4294967295 then 0 else st.lite_nonce + 1)
    ∧ (encrypt_xsalsa20_poly1305_lite box header data st).2.sequence
        = st.sequence
    ∧ (encrypt_xsalsa20_poly1305_lite box header data st).2.timestamp
        = st.timestamp := by
  refine ⟨rfl, by simp [be32], rfl, ?_, rfl, rfl⟩
  simp [encrypt_xsalsa20_poly1305_lite, checked_add]

/-- C4: in `xsalsa20_poly1305` mode the secret box receives the header
zero-padded to 24 bytes (24 bytes long whenever the header has its 12-byte
shape) and the wire packet is `header ∥ ciphertext` with nothing appended
(its length is exactly header length plus ciphertext length); in
`xsalsa20_poly1305_suffix` mode the secret box receives the externally-drawn
random nonce and the wire packet is `header ∥ ciphertext ∥ nonce` with the
full 24-byte nonce appended. -/
theorem encrypt_plain_suffix_spec (box : List Nat → List Nat → List Nat)
    (random_nonce header data : List Nat) :
    encrypt_xsalsa20_poly1305 box header data
      = header ++ box data (header ++ List.replicate 12 0)
    ∧ (header.length = 12 → (header ++ List.replicate 12 0).length = 24)
    ∧ (encrypt_xsalsa20_poly1305 box header data).length
        = header.length + (box data (header ++ List.replicate 12 0)).length
    ∧ encrypt_xsalsa20_poly1305_suffix box random_nonce header data
      = header ++ box data random_nonce ++ random_nonce
    ∧ (random_nonce.length = 24 →
        (encrypt_xsalsa20_poly1305_suffix box random_nonce header data).length
          = header.length + (box data random_nonce).length + 24) := by
  refine ⟨rfl, ?_, ?_, rfl, ?_⟩
  · intro h
    simp [h]
  · simp [encrypt_xsalsa20_poly1305]
  · intro h
    simp [encrypt_xsalsa20_poly1305_suffix, h]
    omega

/-- C4 witness: the theorem instantiated at a concrete box, 12-byte header,
24-byte random nonce and one-byte payload. -/
theorem encrypt_plain_suffix_spec_witness :
    ((List.replicate 12 (1 : Nat)) ++ List.replicate 12 0).length = 24
    ∧ (encrypt_xsalsa20_poly1305_suffix (fun d _ => d) (List.replicate 24 2)
        (List.replicate 12 1) [5]).length = 37 := by
  have h := encrypt_plain_suffix_spec (fun d _ => d) (List.replicate 24 2)
    (List.replicate 12 1) [5]
  refine ⟨h.2.1 (by decide), ?_⟩
  have h2 := h.2.2.2.2 (by decide)
  simpa using h2

/-- C6: `play` raises the state error (`ClientException`) when not connected
or when already playing, the type error when the source is not an
`AudioSource`; for a non-opus source the encoder is constructed before the
player exists, so an out-of-range bitrate (e.g. `1024`, outside 16–512)
yields the configuration error (`ValueError`) and the `Except.error` result
carries no started player; for an opus source no encoder is constructed and
the encoder parameters are ignored (any bitrate succeeds). -/
theorem play_spec (playing src_ok src_opus : Bool) (bitrate : Nat) :
    play false playing src_ok src_opus bitrate = Except.error PyExc.clientException
    ∧ play true true src_ok src_opus bitrate = Except.error PyExc.clientException
    ∧ play true false false src_opus bitrate = Except.error PyExc.typeError
    ∧ play true false true false bitrate
        = (if 16 ≤ bitrate ∧ bitrate ≤ 512 then Except.ok ⟨true, true⟩
           else Except.error PyExc.valueError)
    ∧ play true false true true bitrate = Except.ok ⟨false, true⟩ := by
  refine ⟨rfl, rfl, rfl, ?_, rfl⟩
  by_cases h : 16 ≤ bitrate ∧ bitrate ≤ 512 <;> simp [play, Encoder_new, h]

/-- C7 counterexample: with the client connected, a receiver on standby (not
listening, not cleaning), a valid sink, the process pool NOT initialized and
`decode=False` (arguments in order: connected, receiver, sink_is_AudioSink,
pool_initialized, decode, supress_warning, opus_loaded), `listen` still
raises the state error — refuting the claim that the pool requirement
applies (only) when `decode=True`. -/
theorem listen_pool_counterexample :
    listen true (some ⟨true, false⟩) true false false false true
      = Except.error PyExc.clientException
    ∧ is_listen_receiving (some ⟨true, false⟩) = false
    ∧ is_listen_cleaning (some ⟨true, false⟩) = false :=
  ⟨rfl, rfl, rfl⟩

/-- C7 amended: `listen` raises the state error (`ClientException`) exactly
when not connected, already listening, or the decode worker pool is not
initialized — the pool check is unconditional, independent of `decode`; the
type error fires for a bad sink once connected and not listening; and a call
that goes through on an on-standby receiver with the pool initialized emits
the advisory cleanup warning exactly when cleanup is in progress and the
suppression flag is not set. -/
theorem listen_spec (connected : Bool) (receiver : Option ReceiverState)
    (pool decode supress opus : Bool) :
    (listen connected receiver true pool decode supress opus
        = Except.error PyExc.clientException
      ↔ (connected = false ∨ is_listen_receiving receiver = true ∨ pool = false))
    ∧ (listen true receiver false pool decode supress opus
        = Except.error PyExc.typeError
      ↔ is_listen_receiving receiver = false)
    ∧ (∀ cleaning : Bool,
        listen true (some ⟨true, cleaning⟩) true true decode supress true
          = Except.ok (!supress && cleaning)) := by
  rcases receiver with _ | ⟨s, c⟩
  · revert connected pool decode supress opus
    decide
  · revert connected pool decode supress opus s c
    decide

/-- C7 witness: the amended theorem applied with the pool uninitialized and
`decode=False`. -/
theorem listen_spec_witness :
    listen true none true false false true true
      = Except.error PyExc.clientException :=
  (listen_spec true none false false true true).1.mpr
    (Or.inr (Or.inr rfl))

/-- C8: `send_audio_packet` never propagates the transport (`OSError`) send
failure — it returns normally for either send outcome, merely marking the
packet dropped — and regardless of send success the sequence advances by
`checked_add 1` (limit 65535) before the packet is built (the packet starts
with the header carrying the NEW sequence and the OLD timestamp) while the
timestamp advances by one codec frame of samples via `checked_add` (limit
4294967295) after the send attempt; state and packet are identical whether
or not the send succeeded. -/
theorem send_audio_packet_spec (box : List Nat → List Nat → List Nat)
    (mode : SupportedMode) (random_nonce : List Nat)
    (ssrc samples_per_frame : Nat) (encode_fn : List Nat → List Nat)
    (encode send_ok : Bool) (st : VoiceClientState) (data : List Nat) :
    (send_audio_packet box mode random_nonce ssrc samples_per_frame encode_fn
        encode send_ok st data).1.sequence = checked_add st.sequence 1 65535
    ∧ (send_audio_packet box mode random_nonce ssrc samples_per_frame encode_fn
        encode send_ok st data).1.timestamp
        = checked_add st.timestamp samples_per_frame 4294967295
    ∧ (send_audio_packet box mode random_nonce ssrc samples_per_frame encode_fn
        encode send_ok st data).2.2 = !send_ok
    ∧ (send_audio_packet box mode random_nonce ssrc samples_per_frame encode_fn
        encode true st data).1
        = (send_audio_packet box mode random_nonce ssrc samples_per_frame
            encode_fn encode false st data).1
    ∧ (send_audio_packet box mode random_nonce ssrc samples_per_frame encode_fn
        encode true st data).2.1
        = (send_audio_packet box mode random_nonce ssrc samples_per_frame
            encode_fn encode false st data).2.1
    ∧ ∃ rest, (send_audio_packet box mode random_nonce ssrc samples_per_frame
        encode_fn encode send_ok st data).2.1
        = rtpHeader (checked_add st.sequence 1 65535) st.timestamp ssrc ++ rest := by
  have h1 : ∀ (a b : List Nat), ∃ rest, a ++ b = a ++ rest :=
    fun a b => ⟨b, rfl⟩
  have h2 : ∀ (a b c : List Nat), ∃ rest, a ++ b ++ c = a ++ rest :=
    fun a b c => ⟨b ++ c, List.append_assoc a b c⟩
  cases mode
  · exact ⟨rfl, rfl, rfl, rfl, rfl, h2 _ _ _⟩
  · exact ⟨rfl, rfl, rfl, rfl, rfl, h2 _ _ _⟩
  · exact ⟨rfl, rfl, rfl, rfl, rfl, h1 _ _⟩

end VoiceClientPy
